import Mathlib

/-!
Pipeline variants of osbuild-composer: installer tree, commit-server tree, qcow2

A shallow embedding of `internal/pipeline/anaconda.go`,
`internal/pipeline/commit_server_tree.go` and `internal/pipeline/qcow2.go`.

Go values become Lean structures, a Go pointer becomes an `Option`, a Go map
literal becomes an association list in the order of the literal, and a Go
function that can abort (a panic, a nil dereference) returns `Except String`.
The packages `rpmmd` and `osbuild2` and the base `Pipeline` type are used by
the three files but declared elsewhere; the parts of them that the three files
touch are modelled below, each marked as such.
-/

namespace rpmmd

/-- Modelled from the spec: a repo config, "repository identity and access
parameters". The type is declared in package rpmmd; the pipelines only pass
repo configs on to the package installation stage. -/
structure RepoConfig where
  Name : String
  BaseURL : String
deriving DecidableEq, Repr

/-- Modelled from the spec: a resolved package spec, "package name,
version/release/arch fields sufficient to extract a kernel version string".
The type is declared in package rpmmd. -/
structure PackageSpec where
  Name : String
  Version : String
  Release : String
  Arch : String
deriving DecidableEq, Repr

/-- Modelled from the spec: rpmmd.GetVerStrFromPackageSpecListPanic, which is
declared in package rpmmd. The spec says that the kernel version string is
extracted from the fields of the named package and that construction "fails
fatally if the named kernel package is not present in the resolved package
specs". The textual format of the version string is not fixed by the spec, so
the derivation from one package is the parameter `verStr`. The package taken
is the first one in list order that carries the name. -/
def GetVerStrFromPackageSpecListPanic (verStr : PackageSpec → String)
    (pkgs : List PackageSpec) (packageName : String) : Except String String :=
  match pkgs.find? (fun pkg => pkg.Name == packageName) with
  | some pkg => Except.ok (verStr pkg)
  | none => Except.error ("package not found in the PackageSpec list: " ++ packageName)

end rpmmd

namespace osbuild2

/-- Modelled from the spec: options of the package installation stage, built
"from repo configs" by osbuild2.NewRPMStageOptions (declared in package
osbuild2); the record carries the repo configs it was built from. -/
structure RPMStageOptions where
  repos : List rpmmd.RepoConfig
deriving DecidableEq, Repr

/-- Modelled from the spec: inputs of the package installation stage, built
from the package specs by osbuild2.NewRpmStageSourceFilesInputs. -/
structure RPMStageInputs where
  packages : List rpmmd.PackageSpec
deriving DecidableEq, Repr

/-- Fields of osbuild2.BuildstampStageOptions set in anaconda.go. -/
structure BuildstampStageOptions where
  Arch : String
  Product : String
  Variant : String
  Version : String
  Final : Bool
deriving DecidableEq, Repr

/-- Fields of osbuild2.LocaleStageOptions set in the pipelines. -/
structure LocaleStageOptions where
  Language : String
deriving DecidableEq, Repr

/-- Fields of osbuild2.UsersStageOptionsUser set in anaconda.go; each is a Go
pointer, absent when the struct literal leaves it out. -/
structure UsersStageOptionsUser where
  UID : Option Int := none
  GID : Option Int := none
  Home : Option String := none
  Shell : Option String := none
  Password : Option String := none
deriving DecidableEq, Repr

/-- The users stage options: a Go map from account name to account, kept as an
association list in the order of the map literal. -/
structure UsersStageOptions where
  Users : List (String × UsersStageOptionsUser)
deriving DecidableEq, Repr

/-- Modelled from the spec: options of the installer-enablement stage, "keyed
on the Users flag", built by osbuild2.NewAnacondaStageOptions (declared in
package osbuild2); the record carries the flag it was built from. -/
structure AnacondaStageOptions where
  users : Bool
deriving DecidableEq, Repr

/-- Fields of osbuild2.LoraxScriptStageOptions set in anaconda.go. -/
structure LoraxScriptStageOptions where
  Path : String
  BaseArch : String
deriving DecidableEq, Repr

/-- Fields of osbuild2.DracutStageOptions set in dracutStageOptions. -/
structure DracutStageOptions where
  Kernel : List String
  Modules : List String
  Install : List String
deriving DecidableEq, Repr

/-- Modelled from the spec: the SELinux modes; only the permissive constant is
referenced by the pipelines. -/
inductive SELinuxState where
  | enforcing
  | permissive
  | disabled
deriving DecidableEq, Repr

/-- The constant osbuild2.SELinuxStatePermissive. -/
def SELinuxStatePermissive : SELinuxState := SELinuxState.permissive

/-- Fields of osbuild2.SELinuxConfigStageOptions set in anaconda.go. -/
structure SELinuxConfigStageOptions where
  State : SELinuxState
deriving DecidableEq, Repr

/-- Fields of osbuild2.OSTreeInitStageOptions set in commit_server_tree.go. -/
structure OSTreeInitStageOptions where
  Path : String
deriving DecidableEq, Repr

/-- Fields of osbuild2.OSTreePullStageOptions set in commit_server_tree.go. -/
structure OSTreePullStageOptions where
  Repo : String
deriving DecidableEq, Repr

/-- The input of the content-pull stage; the three components are the three
arguments of osbuild2.NewOstreePullStageInputs in the order of the call. -/
structure OstreePullStageInputs where
  origin : String
  name : String
  ref : String
deriving DecidableEq, Repr

/-- One entry of the chmod stage. -/
structure ChmodStagePathOptions where
  Mode : String
  Recursive : Bool
deriving DecidableEq, Repr

/-- The chmod stage options: a Go map from path to entry, kept as an
association list. -/
structure ChmodStageOptions where
  Items : List (String × ChmodStagePathOptions)
deriving DecidableEq, Repr

/-- Fields of osbuild2.NginxConfig set in nginxConfigStageOptions; Daemon is a
pointer to a boolean. -/
structure NginxConfig where
  Listen : String
  Root : String
  Daemon : Option Bool
  PID : String
deriving DecidableEq, Repr

/-- Fields of osbuild2.NginxConfigStageOptions; Config is a pointer. -/
structure NginxConfigStageOptions where
  Path : String
  Config : Option NginxConfig
deriving DecidableEq, Repr

/-- Modelled from the spec: the image formats of the conversion stage; only
the qcow2 constant is referenced by the pipelines. -/
inductive QEMUFormat where
  | qcow2
  | vdi
  | vmdk
  | vpc
deriving DecidableEq, Repr

/-- The constant osbuild2.QEMUFormatQCOW2. -/
def QEMUFormatQCOW2 : QEMUFormat := QEMUFormat.qcow2

/-- The format options passed in qcow2.go. -/
structure QCOW2Options where
  Compat : String
deriving DecidableEq, Repr

/-- Modelled from the spec: options of the conversion stage, which "select the
target format and compatibility level"; built by osbuild2.NewQEMUStageOptions
from the three arguments of the call. -/
structure QEMUStageOptions where
  Filename : String
  Format : QEMUFormat
  FormatOptions : QCOW2Options
deriving DecidableEq, Repr

/-- Modelled from the spec: the input of the conversion stage, the
cross-pipeline reference (kind, name, file). -/
structure QEMUStageInputs where
  kind : String
  name : String
  file : String
deriving DecidableEq, Repr

/-- A stage descriptor: one constructor for each stage constructor function of
package osbuild2 that the pipelines call, carrying its options and inputs. -/
inductive Stage where
  | rpm (options : RPMStageOptions) (inputs : RPMStageInputs)
  | buildstamp (options : BuildstampStageOptions)
  | locale (options : LocaleStageOptions)
  | users (options : UsersStageOptions)
  | anaconda (options : AnacondaStageOptions)
  | loraxScript (options : LoraxScriptStageOptions)
  | dracut (options : DracutStageOptions)
  | selinuxConfig (options : SELinuxConfigStageOptions)
  | ostreeInit (options : OSTreeInitStageOptions)
  | ostreePull (options : OSTreePullStageOptions) (inputs : OstreePullStageInputs)
  | chmod (options : ChmodStageOptions)
  | nginxConfig (options : NginxConfigStageOptions)
  | qemu (options : QEMUStageOptions) (inputs : QEMUStageInputs)
deriving DecidableEq, Repr

/-- The operation kind of a stage descriptor. -/
inductive StageKind where
  | rpm
  | buildstamp
  | locale
  | users
  | anaconda
  | loraxScript
  | dracut
  | selinuxConfig
  | ostreeInit
  | ostreePull
  | chmod
  | nginxConfig
  | qemu
deriving DecidableEq, Repr

/-- The kind of a stage. -/
def Stage.kind : Stage → StageKind
  | Stage.rpm _ _ => StageKind.rpm
  | Stage.buildstamp _ => StageKind.buildstamp
  | Stage.locale _ => StageKind.locale
  | Stage.users _ => StageKind.users
  | Stage.anaconda _ => StageKind.anaconda
  | Stage.loraxScript _ => StageKind.loraxScript
  | Stage.dracut _ => StageKind.dracut
  | Stage.selinuxConfig _ => StageKind.selinuxConfig
  | Stage.ostreeInit _ => StageKind.ostreeInit
  | Stage.ostreePull _ _ => StageKind.ostreePull
  | Stage.chmod _ => StageKind.chmod
  | Stage.nginxConfig _ => StageKind.nginxConfig
  | Stage.qemu _ _ => StageKind.qemu

/-- Modelled from the spec: the serialized pipeline, "a value object holding
name, the resolved build-root reference (name of buildPipeline, if any), and
the accumulated stage list in insertion order". -/
structure Pipeline where
  Name : String
  Build : Option String
  Stages : List Stage
deriving DecidableEq, Repr

/-- Modelled from the spec: AddStage is append-only. -/
def Pipeline.AddStage (p : Pipeline) (stage : Stage) : Pipeline :=
  { p with Stages := p.Stages ++ [stage] }

def NewRPMStageOptions (repos : List rpmmd.RepoConfig) : RPMStageOptions :=
  { repos := repos }

def NewRpmStageSourceFilesInputs (specs : List rpmmd.PackageSpec) : RPMStageInputs :=
  { packages := specs }

def NewRPMStage (options : RPMStageOptions) (inputs : RPMStageInputs) : Stage :=
  Stage.rpm options inputs

def NewBuildstampStage (options : BuildstampStageOptions) : Stage :=
  Stage.buildstamp options

def NewLocaleStage (options : LocaleStageOptions) : Stage :=
  Stage.locale options

def NewUsersStage (options : UsersStageOptions) : Stage :=
  Stage.users options

def NewAnacondaStageOptions (users : Bool) : AnacondaStageOptions :=
  { users := users }

def NewAnacondaStage (options : AnacondaStageOptions) : Stage :=
  Stage.anaconda options

def NewLoraxScriptStage (options : LoraxScriptStageOptions) : Stage :=
  Stage.loraxScript options

def NewDracutStage (options : DracutStageOptions) : Stage :=
  Stage.dracut options

def NewSELinuxConfigStage (options : SELinuxConfigStageOptions) : Stage :=
  Stage.selinuxConfig options

def NewOSTreeInitStage (options : OSTreeInitStageOptions) : Stage :=
  Stage.ostreeInit options

def NewOstreePullStageInputs (origin source commitRef : String) : OstreePullStageInputs :=
  { origin := origin, name := source, ref := commitRef }

def NewOSTreePullStage (options : OSTreePullStageOptions) (inputs : OstreePullStageInputs) : Stage :=
  Stage.ostreePull options inputs

def NewChmodStage (options : ChmodStageOptions) : Stage :=
  Stage.chmod options

def NewNginxConfigStage (options : NginxConfigStageOptions) : Stage :=
  Stage.nginxConfig options

def NewQEMUStageOptions (filename : String) (format : QEMUFormat) (formatOptions : QCOW2Options) :
    QEMUStageOptions :=
  { Filename := filename, Format := format, FormatOptions := formatOptions }

/-- Modelled from the spec: the conversion stage input is the reference
`(kind="pipeline-file", name, file)`. -/
def NewQemuStagePipelineFilesInputs (pipeline file : String) : QEMUStageInputs :=
  { kind := "pipeline-file", name := pipeline, file := file }

def NewQEMUStage (options : QEMUStageOptions) (inputs : QEMUStageInputs) : Stage :=
  Stage.qemu options inputs

/-- The options of a dracut stage, nothing for another stage. -/
def Stage.dracutOptions? : Stage → Option DracutStageOptions
  | Stage.dracut o => some o
  | _ => none

/-- The options of a locale stage, nothing for another stage. -/
def Stage.localeOptions? : Stage → Option LocaleStageOptions
  | Stage.locale o => some o
  | _ => none

/-- The inputs of a content-pull stage, nothing for another stage. -/
def Stage.ostreePullInputs? : Stage → Option OstreePullStageInputs
  | Stage.ostreePull _ i => some i
  | _ => none

/-- The options of an nginx configuration stage, nothing for another stage. -/
def Stage.nginxConfigOptions? : Stage → Option NginxConfigStageOptions
  | Stage.nginxConfig o => some o
  | _ => none

/-- The options of a users stage, nothing for another stage. -/
def Stage.usersOptions? : Stage → Option UsersStageOptions
  | Stage.users o => some o
  | _ => none

/-- The options of a buildstamp stage, nothing for another stage. -/
def Stage.buildstampOptions? : Stage → Option BuildstampStageOptions
  | Stage.buildstamp o => some o
  | _ => none

/-- The options of a lorax-script stage, nothing for another stage. -/
def Stage.loraxScriptOptions? : Stage → Option LoraxScriptStageOptions
  | Stage.loraxScript o => some o
  | _ => none

/-- The options of a SELinux configuration stage, nothing for another stage. -/
def Stage.selinuxConfigOptions? : Stage → Option SELinuxConfigStageOptions
  | Stage.selinuxConfig o => some o
  | _ => none

/-- The options of a content-store initialization stage, nothing for another
stage. -/
def Stage.ostreeInitOptions? : Stage → Option OSTreeInitStageOptions
  | Stage.ostreeInit o => some o
  | _ => none

/-- The options of a content-pull stage, nothing for another stage. -/
def Stage.ostreePullOptions? : Stage → Option OSTreePullStageOptions
  | Stage.ostreePull o _ => some o
  | _ => none

end osbuild2

namespace common

/-- The helper common.BoolToPtr: a pointer to the given boolean. -/
def BoolToPtr (b : Bool) : Option Bool := some b

end common

namespace filepath

/-- Splits a path at every slash; the components between two slashes, before
the first and after the last one are all kept, empty ones included. -/
def splitSlash : List Char → List (List Char)
  | [] => [[]]
  | c :: cs =>
    if c = '/' then [] :: splitSlash cs
    else
      match splitSlash cs with
      | [] => [[c]]
      | w :: ws => (c :: w) :: ws

/-- One step of path cleaning: `acc` holds the components kept so far, last
one first. Empty components and "." are dropped; ".." removes the component
before it, is dropped at the root, and is kept at the start of a relative
path. -/
def cleanStep (rooted : Bool) (acc : List (List Char)) (comp : List Char) : List (List Char) :=
  if comp = [] ∨ comp = ['.'] then acc
  else if comp = ['.', '.'] then
    match acc with
    | [] => if rooted then [] else [comp]
    | top :: rest => if top = ['.', '.'] then comp :: acc else rest
  else comp :: acc

/-- The Go standard library function filepath.Clean on a slash-separated
path: the shortest equivalent path by lexical processing. -/
def Clean (path : String) : String :=
  if path = "" then "."
  else
    let rooted := path.data.head? = some '/'
    let comps := ((splitSlash path.data).foldl (cleanStep rooted) []).reverse
    let body := String.mk (List.intercalate ['/'] comps)
    if rooted then "/" ++ body
    else if body = "" then "." else body

/-- The Go standard library function filepath.Join: the elements from the first
non-empty one on are joined with a slash and the result is cleaned; with no
non-empty element the result is the empty string. -/
def Join (elem : List String) : String :=
  match elem.dropWhile (fun e => e == "") with
  | [] => ""
  | rest => Clean ("/".intercalate rest)

end filepath

namespace pipeline

/-- Modelled from the spec: a build pipeline, "referenced by name, never
embedded by value". -/
structure BuildPipeline where
  Name : String
deriving DecidableEq, Repr

/-- Modelled from the spec: the base pipeline, with `name`, an optional
`buildPipeline`, an optional `ref` and the ordered `stages`. The type is
declared in pipeline.go. -/
structure Pipeline where
  name : String
  build : Option BuildPipeline
  ref : Option String
  stages : List osbuild2.Stage
deriving DecidableEq, Repr

/-- Modelled from the spec: the base constructor, "constructed with
(name, buildPipeline, ref)"; a new pipeline has no stage. -/
def New (name : String) (buildPipeline : Option BuildPipeline) (ref : Option String) : Pipeline :=
  { name := name, build := buildPipeline, ref := ref, stages := [] }

def Pipeline.Name (p : Pipeline) : String := p.name

def Pipeline.Ref (p : Pipeline) : Option String := p.ref

/-- Modelled from the spec: the base Serialize "returns a value object holding
name, the resolved build-root reference (name of buildPipeline, if any), and
the accumulated stage list in insertion order". -/
def Pipeline.Serialize (p : Pipeline) : osbuild2.Pipeline :=
  { Name := p.name, Build := p.build.map (fun b => b.Name), Stages := p.stages }

/-- Modelled from the spec: the content-commit pipeline consumed by the
commit-server tree; the type is declared elsewhere and only its accessors
Name() and Ref() are called. -/
structure OSTreeCommitPipeline where
  Name : String
  Ref : String
deriving DecidableEq, Repr

/-- Modelled from the spec: the raw-image pipeline consumed by the conversion
pipeline ("by name and produced filename"); the type is declared elsewhere and
only its accessors Name() and Filename() are called. -/
structure LiveImgPipeline where
  Name : String
  Filename : String
deriving DecidableEq, Repr

/-! ## anaconda.go -/

structure AnacondaPipeline extends Pipeline where
  Users : Bool := false
  Biosdevname : Bool := false
  Variant : String := ""
  repos : List rpmmd.RepoConfig
  packageSpecs : List rpmmd.PackageSpec
  kernelVer : String
  arch : String
  product : String
  version : String
deriving DecidableEq, Repr

/-- The constructor; it aborts when the kernel package is not found. -/
def NewAnacondaPipeline (verStr : rpmmd.PackageSpec → String)
    (buildPipeline : Option BuildPipeline)
    (repos : List rpmmd.RepoConfig)
    (packages : List rpmmd.PackageSpec)
    (kernelName arch product version : String) : Except String AnacondaPipeline :=
  match rpmmd.GetVerStrFromPackageSpecListPanic verStr packages kernelName with
  | Except.error e => Except.error e
  | Except.ok kernelVer =>
    Except.ok {
      toPipeline := New "anaconda-tree" buildPipeline none
      repos := repos
      packageSpecs := packages
      kernelVer := kernelVer
      arch := arch
      product := product
      version := version }

def AnacondaPipeline.KernelVer (p : AnacondaPipeline) : String := p.kernelVer

def AnacondaPipeline.Arch (p : AnacondaPipeline) : String := p.arch

def AnacondaPipeline.Product (p : AnacondaPipeline) : String := p.product

def AnacondaPipeline.Version (p : AnacondaPipeline) : String := p.version

def dracutStageOptions (kernelVer : String) (biosdevname : Bool) (additionalModules : List String) :
    osbuild2.DracutStageOptions :=
  let kernel := [kernelVer]
  let modules := [
    "bash",
    "systemd",
    "fips",
    "systemd-initrd",
    "modsign",
    "nss-softokn",
    "i18n",
    "convertfs",
    "network-manager",
    "network",
    "ifcfg",
    "url-lib",
    "drm",
    "plymouth",
    "crypt",
    "dm",
    "dmsquash-live",
    "kernel-modules",
    "kernel-modules-extra",
    "kernel-network-modules",
    "livenet",
    "lvm",
    "mdraid",
    "qemu",
    "qemu-net",
    "resume",
    "rootfs-block",
    "terminfo",
    "udev-rules",
    "dracut-systemd",
    "pollcdrom",
    "usrmount",
    "base",
    "fs-lib",
    "img-lib",
    "shutdown",
    "uefi-lib"]
  let modules := if biosdevname then modules ++ ["biosdevname"] else modules
  let modules := modules ++ additionalModules
  { Kernel := kernel, Modules := modules, Install := ["/.buildstamp"] }

def AnacondaPipeline.Serialize (p : AnacondaPipeline) : osbuild2.Pipeline :=
  let pipeline := p.toPipeline.Serialize
  let pipeline := pipeline.AddStage (osbuild2.NewRPMStage (osbuild2.NewRPMStageOptions p.repos)
    (osbuild2.NewRpmStageSourceFilesInputs p.packageSpecs))
  let pipeline := pipeline.AddStage (osbuild2.NewBuildstampStage {
    Arch := p.Arch
    Product := p.Product
    Variant := p.Variant
    Version := p.Version
    Final := true })
  let pipeline := pipeline.AddStage (osbuild2.NewLocaleStage { Language := "en_US.UTF-8" })
  let rootPassword := ""
  let rootUser : osbuild2.UsersStageOptionsUser := { Password := some rootPassword }
  let installUID : Int := 0
  let installGID : Int := 0
  let installHome := "/root"
  let installShell := "/usr/libexec/anaconda/run-anaconda"
  let installPassword := ""
  let installUser : osbuild2.UsersStageOptionsUser := {
    UID := some installUID
    GID := some installGID
    Home := some installHome
    Shell := some installShell
    Password := some installPassword }
  let usersStageOptions : osbuild2.UsersStageOptions := {
    Users := [("root", rootUser), ("install", installUser)] }
  let pipeline := pipeline.AddStage (osbuild2.NewUsersStage usersStageOptions)
  let pipeline := pipeline.AddStage
    (osbuild2.NewAnacondaStage (osbuild2.NewAnacondaStageOptions p.Users))
  let pipeline := pipeline.AddStage (osbuild2.NewLoraxScriptStage {
    Path := "99-generic/runtime-postinstall.tmpl"
    BaseArch := p.Arch })
  let pipeline := pipeline.AddStage (osbuild2.NewDracutStage
    (dracutStageOptions p.KernelVer p.Biosdevname [
      "anaconda",
      "rdma",
      "rngd",
      "multipath",
      "fcoe",
      "fcoe-uefi",
      "iscsi",
      "lunmask",
      "nfs"]))
  let pipeline := pipeline.AddStage
    (osbuild2.NewSELinuxConfigStage { State := osbuild2.SELinuxStatePermissive })
  pipeline

/-! ## commit_server_tree.go -/

structure OSTreeCommitServerTreePipeline extends Pipeline where
  Language : String
  repos : List rpmmd.RepoConfig
  packageSpecs : List rpmmd.PackageSpec
  commitPipeline : Option OSTreeCommitPipeline
  nginxConfigPath : String
  listenPort : String
deriving DecidableEq, Repr

def NewOSTreeCommitServerTreePipeline (buildPipeline : Option BuildPipeline)
    (repos : List rpmmd.RepoConfig)
    (packageSpecs : List rpmmd.PackageSpec)
    (commitPipeline : Option OSTreeCommitPipeline)
    (nginxConfigPath listenPort : String) : OSTreeCommitServerTreePipeline :=
  { toPipeline := New "container-tree" buildPipeline none
    repos := repos
    packageSpecs := packageSpecs
    commitPipeline := commitPipeline
    nginxConfigPath := nginxConfigPath
    listenPort := listenPort
    Language := "en_US" }

def nginxConfigStageOptions (path htmlRoot listen : String) : osbuild2.NginxConfigStageOptions :=
  let cfg : osbuild2.NginxConfig := {
    Listen := listen
    Root := htmlRoot
    Daemon := common.BoolToPtr false
    PID := "/tmp/nginx.pid" }
  { Path := path, Config := some cfg }

def chmodStageOptions (path mode : String) (recursive : Bool) : osbuild2.ChmodStageOptions :=
  { Items := [(path, { Mode := mode, Recursive := recursive })] }

/-- Serialize of the commit-server tree. The commit pipeline is a pointer that
is dereferenced when the content-pull stage is built: a nil pointer aborts. -/
def OSTreeCommitServerTreePipeline.Serialize (p : OSTreeCommitServerTreePipeline) :
    Except String osbuild2.Pipeline :=
  let pipeline := p.toPipeline.Serialize
  let pipeline := pipeline.AddStage (osbuild2.NewRPMStage (osbuild2.NewRPMStageOptions p.repos)
    (osbuild2.NewRpmStageSourceFilesInputs p.packageSpecs))
  let pipeline := pipeline.AddStage (osbuild2.NewLocaleStage { Language := p.Language })
  let htmlRoot := "/usr/share/nginx/html"
  let repoPath := filepath.Join [htmlRoot, "repo"]
  let pipeline := pipeline.AddStage (osbuild2.NewOSTreeInitStage { Path := repoPath })
  match p.commitPipeline with
  | none => Except.error "nil pointer dereference: commitPipeline"
  | some commitPipeline =>
    let pipeline := pipeline.AddStage (osbuild2.NewOSTreePullStage
      { Repo := repoPath }
      (osbuild2.NewOstreePullStageInputs "org.osbuild.pipeline"
        ("name:" ++ commitPipeline.Name) commitPipeline.Ref))
    let pipeline := pipeline.AddStage
      (osbuild2.NewChmodStage (chmodStageOptions "/var/log/nginx" "a+rwX" true))
    let pipeline := pipeline.AddStage
      (osbuild2.NewChmodStage (chmodStageOptions "/var/lib/nginx" "a+rwX" true))
    let pipeline := pipeline.AddStage (osbuild2.NewNginxConfigStage
      (nginxConfigStageOptions p.nginxConfigPath htmlRoot p.listenPort))
    Except.ok pipeline

/-! ## qcow2.go -/

structure QCOW2Pipeline extends Pipeline where
  Compat : String := ""
  imgPipeline : Option LiveImgPipeline
  filename : String
deriving DecidableEq, Repr

def NewQCOW2Pipeline (buildPipeline : Option BuildPipeline)
    (imgPipeline : Option LiveImgPipeline) (filename : String) : QCOW2Pipeline :=
  { toPipeline := New "qcow2" buildPipeline none
    imgPipeline := imgPipeline
    filename := filename }

/-- Serialize of the conversion pipeline. The image pipeline is a pointer that
is dereferenced when the stage input is built: a nil pointer aborts. -/
def QCOW2Pipeline.Serialize (p : QCOW2Pipeline) : Except String osbuild2.Pipeline :=
  let pipeline := p.toPipeline.Serialize
  match p.imgPipeline with
  | none => Except.error "nil pointer dereference: imgPipeline"
  | some imgPipeline =>
    let pipeline := pipeline.AddStage (osbuild2.NewQEMUStage
      (osbuild2.NewQEMUStageOptions p.filename osbuild2.QEMUFormatQCOW2
        { Compat := p.Compat })
      (osbuild2.NewQemuStagePipelineFilesInputs imgPipeline.Name imgPipeline.Filename))
    Except.ok pipeline

/-! ## Notions used to state the properties -/

/-- Whether `path` is the directory `dir` or lies below it, after lexical
cleaning of `path`. -/
def liesUnder (dir path : String) : Bool :=
  let cleaned := filepath.Clean path
  cleaned == dir || (dir.data ++ ['/']).isPrefixOf cleaned.data

/-- A valid listen port: a decimal number between 1 and 65535. -/
def isValidPort (s : String) : Bool :=
  !s.data.isEmpty && s.data.all Char.isDigit &&
    (let n := s.data.foldl (fun acc c => 10 * acc + (c.toNat - '0'.toNat)) 0
     1 ≤ n && n ≤ 65535)

end pipeline


/-! ## Shared lemmas -/

namespace pipeline

open osbuild2

/-- The repository path computed by Serialize of the commit-server tree. -/
theorem repoPath_eq :
    filepath.Join ["/usr/share/nginx/html", "repo"] = "/usr/share/nginx/html/repo" := by
  decide

/-- A successful construction of the installer tree yields the record built
from the arguments, with the base pipeline fresh and the three exported fields
at their zero values. -/
theorem NewAnacondaPipeline_ok (verStr : rpmmd.PackageSpec → String)
    (build : Option BuildPipeline) (repos : List rpmmd.RepoConfig)
    (packages : List rpmmd.PackageSpec) (kernelName arch product version : String)
    (p : AnacondaPipeline)
    (h : NewAnacondaPipeline verStr build repos packages kernelName arch product version
      = Except.ok p) :
    ∃ kernelVer,
      rpmmd.GetVerStrFromPackageSpecListPanic verStr packages kernelName = Except.ok kernelVer ∧
      p = { toPipeline := New "anaconda-tree" build none
            repos := repos
            packageSpecs := packages
            kernelVer := kernelVer
            arch := arch
            product := product
            version := version } := by
  unfold NewAnacondaPipeline at h
  cases hk : rpmmd.GetVerStrFromPackageSpecListPanic verStr packages kernelName with
  | error e => rw [hk] at h; cases h
  | ok kernelVer =>
    rw [hk] at h
    exact ⟨kernelVer, rfl, (Except.ok.inj h).symm⟩

/-- The stage list of the installer tree: the stages of the base pipeline
followed by the eight stages that Serialize adds. -/
theorem anaconda_Serialize_stages (p : AnacondaPipeline) :
    p.Serialize.Stages = p.stages ++ [
      Stage.rpm { repos := p.repos } { packages := p.packageSpecs },
      Stage.buildstamp { Arch := p.arch, Product := p.product, Variant := p.Variant,
                         Version := p.version, Final := true },
      Stage.locale { Language := "en_US.UTF-8" },
      Stage.users { Users := [
        ("root", { Password := some "" }),
        ("install", { UID := some 0, GID := some 0, Home := some "/root",
                      Shell := some "/usr/libexec/anaconda/run-anaconda",
                      Password := some "" })] },
      Stage.anaconda { users := p.Users },
      Stage.loraxScript { Path := "99-generic/runtime-postinstall.tmpl", BaseArch := p.arch },
      Stage.dracut (dracutStageOptions p.kernelVer p.Biosdevname
        ["anaconda", "rdma", "rngd", "multipath", "fcoe", "fcoe-uefi", "iscsi", "lunmask",
         "nfs"]),
      Stage.selinuxConfig { State := SELinuxState.permissive }] := by
  simp [AnacondaPipeline.Serialize, Pipeline.Serialize, osbuild2.Pipeline.AddStage,
    NewRPMStage, NewRPMStageOptions, NewRpmStageSourceFilesInputs, NewBuildstampStage,
    NewLocaleStage, NewUsersStage, NewAnacondaStage, NewAnacondaStageOptions,
    NewLoraxScriptStage, NewDracutStage, NewSELinuxConfigStage, SELinuxStatePermissive,
    AnacondaPipeline.Arch, AnacondaPipeline.Product, AnacondaPipeline.Version,
    AnacondaPipeline.KernelVer]

/-- With a commit pipeline present, Serialize of the commit-server tree
returns the base pipeline followed by the seven stages that it adds. -/
theorem commitServer_Serialize_ok (p : OSTreeCommitServerTreePipeline)
    (c : OSTreeCommitPipeline) (hc : p.commitPipeline = some c) :
    p.Serialize = Except.ok {
      Name := p.name
      Build := p.build.map (fun b => b.Name)
      Stages := p.stages ++ [
        Stage.rpm { repos := p.repos } { packages := p.packageSpecs },
        Stage.locale { Language := p.Language },
        Stage.ostreeInit { Path := "/usr/share/nginx/html/repo" },
        Stage.ostreePull { Repo := "/usr/share/nginx/html/repo" }
          { origin := "org.osbuild.pipeline", name := "name:" ++ c.Name, ref := c.Ref },
        Stage.chmod { Items := [("/var/log/nginx", { Mode := "a+rwX", Recursive := true })] },
        Stage.chmod { Items := [("/var/lib/nginx", { Mode := "a+rwX", Recursive := true })] },
        Stage.nginxConfig {
          Path := p.nginxConfigPath
          Config := some { Listen := p.listenPort, Root := "/usr/share/nginx/html",
                           Daemon := some false, PID := "/tmp/nginx.pid" } }] } := by
  simp [OSTreeCommitServerTreePipeline.Serialize, hc, repoPath_eq, Pipeline.Serialize,
    osbuild2.Pipeline.AddStage, NewRPMStage, NewRPMStageOptions, NewRpmStageSourceFilesInputs,
    NewLocaleStage, NewOSTreeInitStage, NewOSTreePullStage, NewOstreePullStageInputs,
    NewChmodStage, chmodStageOptions, NewNginxConfigStage, nginxConfigStageOptions,
    common.BoolToPtr]

/-- With an image pipeline present, Serialize of the conversion pipeline
returns the base pipeline followed by the one stage that it adds. -/
theorem qcow2_Serialize_ok (p : QCOW2Pipeline) (img : LiveImgPipeline)
    (hi : p.imgPipeline = some img) :
    p.Serialize = Except.ok {
      Name := p.name
      Build := p.build.map (fun b => b.Name)
      Stages := p.stages ++ [
        Stage.qemu { Filename := p.filename, Format := QEMUFormat.qcow2,
                     FormatOptions := { Compat := p.Compat } }
          { kind := "pipeline-file", name := img.Name, file := img.Filename }] } := by
  simp [QCOW2Pipeline.Serialize, hi, Pipeline.Serialize, osbuild2.Pipeline.AddStage,
    NewQEMUStage, NewQEMUStageOptions, NewQemuStagePipelineFilesInputs, QEMUFormatQCOW2]

/-- The kernel version lookup fails exactly when no package carries the name. -/
theorem GetVerStr_error_iff (verStr : rpmmd.PackageSpec → String)
    (pkgs : List rpmmd.PackageSpec) (packageName : String) :
    (∃ e, rpmmd.GetVerStrFromPackageSpecListPanic verStr pkgs packageName = Except.error e) ↔
      ∀ pkg ∈ pkgs, pkg.Name ≠ packageName := by
  unfold rpmmd.GetVerStrFromPackageSpecListPanic
  cases hf : pkgs.find? (fun pkg => pkg.Name == packageName) with
  | none =>
    simp only [List.find?_eq_none] at hf
    constructor
    · intro _ pkg hmem
      simpa using hf pkg hmem
    · intro _
      exact ⟨_, rfl⟩
  | some pkg =>
    constructor
    · rintro ⟨e, he⟩
      cases he
    · intro hall
      have hmem := List.mem_of_find?_eq_some hf
      have hname := List.find?_some hf
      exact absurd (by simpa using hname) (hall pkg hmem)

/-- A successful kernel version lookup returns the version string of a package
of the list that carries the name. -/
theorem GetVerStr_ok (verStr : rpmmd.PackageSpec → String)
    (pkgs : List rpmmd.PackageSpec) (packageName v : String)
    (h : rpmmd.GetVerStrFromPackageSpecListPanic verStr pkgs packageName = Except.ok v) :
    ∃ pkg ∈ pkgs, pkg.Name = packageName ∧ v = verStr pkg := by
  unfold rpmmd.GetVerStrFromPackageSpecListPanic at h
  cases hf : pkgs.find? (fun pkg => pkg.Name == packageName) with
  | none => rw [hf] at h; cases h
  | some pkg =>
    rw [hf] at h
    refine ⟨pkg, List.mem_of_find?_eq_some hf, ?_, (Except.ok.inj h).symm⟩
    simpa using List.find?_some hf

/-- Two lists with a common front part agree at an index inside the front
part; at an index behind it they hold the entries of the two back parts at one
and the same offset. -/
theorem getElem?_append_frame {α : Type} (l a b : List α) (i : Nat) :
    (l ++ a)[i]? = (l ++ b)[i]? ∨ ∃ k : Nat, (l ++ a)[i]? = a[k]? ∧ (l ++ b)[i]? = b[k]? := by
  induction l generalizing i with
  | nil => exact Or.inr ⟨i, rfl, rfl⟩
  | cons x l ih =>
    cases i with
    | zero => exact Or.inl (by simp)
    | succ i => simpa using ih i

end pipeline

/-! ## The installer tree -/

namespace pipeline

open osbuild2

/-- C1: for every installer pipeline built by NewAnacondaPipeline, with any
values of the fields Users, Biosdevname and Variant, Serialize returns exactly
eight stages, in the order rpm, buildstamp, locale, users, anaconda,
lorax-script, dracut, selinux; every buildstamp stage has an index strictly
smaller than every anaconda stage. -/
theorem C1_anaconda_stage_order (verStr : rpmmd.PackageSpec → String)
    (build : Option BuildPipeline) (repos : List rpmmd.RepoConfig)
    (packages : List rpmmd.PackageSpec) (kernelName arch product version : String)
    (users biosdevname : Bool) (variant : String) (p : AnacondaPipeline)
    (h : NewAnacondaPipeline verStr build repos packages kernelName arch product version
      = Except.ok p) :
    ((AnacondaPipeline.Serialize
        { p with Users := users, Biosdevname := biosdevname, Variant := variant }).Stages.map
        Stage.kind
      = [StageKind.rpm, StageKind.buildstamp, StageKind.locale, StageKind.users,
         StageKind.anaconda, StageKind.loraxScript, StageKind.dracut,
         StageKind.selinuxConfig]) ∧
    (AnacondaPipeline.Serialize
        { p with Users := users, Biosdevname := biosdevname, Variant := variant }).Stages.length
      = 8 ∧
    ∀ i j : Nat,
      ((AnacondaPipeline.Serialize
          { p with Users := users, Biosdevname := biosdevname, Variant := variant }).Stages.map
          Stage.kind)[i]? = some StageKind.buildstamp →
      ((AnacondaPipeline.Serialize
          { p with Users := users, Biosdevname := biosdevname, Variant := variant }).Stages.map
          Stage.kind)[j]? = some StageKind.anaconda →
      i < j := by
  obtain ⟨kernelVer, -, rfl⟩ := NewAnacondaPipeline_ok _ _ _ _ _ _ _ _ _ h
  have hk : (AnacondaPipeline.Serialize
        { ({ toPipeline := New "anaconda-tree" build none
             repos := repos
             packageSpecs := packages
             kernelVer := kernelVer
             arch := arch
             product := product
             version := version } : AnacondaPipeline) with
          Users := users, Biosdevname := biosdevname, Variant := variant }).Stages.map
        Stage.kind
      = [StageKind.rpm, StageKind.buildstamp, StageKind.locale, StageKind.users,
         StageKind.anaconda, StageKind.loraxScript, StageKind.dracut,
         StageKind.selinuxConfig] := by
    rw [anaconda_Serialize_stages]
    simp [New, Stage.kind]
  refine ⟨hk, ?_, ?_⟩
  · have := congrArg List.length hk
    simpa using this
  · intro i j hi hj
    rw [hk] at hi hj
    have h1 : i = 1 := by
      rcases i with _ | _ | _ | _ | _ | _ | _ | _ | i <;> simp at hi ⊢
    have h4 : j = 4 := by
      rcases j with _ | _ | _ | _ | _ | _ | _ | _ | j <;> simp at hj ⊢
    omega

/-- Witness of C1: an installer pipeline built from a package list that holds
the kernel. -/
theorem C1_anaconda_stage_order_witness :
    NewAnacondaPipeline (fun pkg => pkg.Version ++ "-" ++ pkg.Release ++ "." ++ pkg.Arch)
        none [] [⟨"kernel", "5.14.0", "1.el9", "x86_64"⟩] "kernel" "x86_64" "Fedora" "35"
      = Except.ok
          { toPipeline := New "anaconda-tree" none none
            repos := []
            packageSpecs := [⟨"kernel", "5.14.0", "1.el9", "x86_64"⟩]
            kernelVer := "5.14.0-1.el9.x86_64"
            arch := "x86_64"
            product := "Fedora"
            version := "35" } ∧
    ((AnacondaPipeline.Serialize
        { ({ toPipeline := New "anaconda-tree" none none
             repos := []
             packageSpecs := [⟨"kernel", "5.14.0", "1.el9", "x86_64"⟩]
             kernelVer := "5.14.0-1.el9.x86_64"
             arch := "x86_64"
             product := "Fedora"
             version := "35" } : AnacondaPipeline) with
          Users := true, Biosdevname := true, Variant := "Server" }).Stages.map Stage.kind
      = [StageKind.rpm, StageKind.buildstamp, StageKind.locale, StageKind.users,
         StageKind.anaconda, StageKind.loraxScript, StageKind.dracut,
         StageKind.selinuxConfig]) :=
  ⟨rfl, (C1_anaconda_stage_order
    (fun pkg => pkg.Version ++ "-" ++ pkg.Release ++ "." ++ pkg.Arch) none []
    [⟨"kernel", "5.14.0", "1.el9", "x86_64"⟩] "kernel" "x86_64" "Fedora" "35"
    true true "Server" _ rfl).1⟩

/-- C2: for every installer pipeline built by NewAnacondaPipeline, with any
values of the exported fields, Serialize emits one dracut stage, and its module
list is the base list of dracutStageOptions ("bash" up to "uefi-lib"), followed
by "biosdevname" when the Biosdevname field is set, followed by the nine
installer modules; nothing is removed, reordered or deduplicated. -/
theorem C2_dracut_module_list (verStr : rpmmd.PackageSpec → String)
    (build : Option BuildPipeline) (repos : List rpmmd.RepoConfig)
    (packages : List rpmmd.PackageSpec) (kernelName arch product version : String)
    (users biosdevname : Bool) (variant : String) (p : AnacondaPipeline)
    (h : NewAnacondaPipeline verStr build repos packages kernelName arch product version
      = Except.ok p) :
    ∃ o : DracutStageOptions,
      (AnacondaPipeline.Serialize
          { p with Users := users, Biosdevname := biosdevname, Variant := variant }).Stages.filterMap
          Stage.dracutOptions? = [o] ∧
      o.Modules =
        ["bash", "systemd", "fips", "systemd-initrd", "modsign", "nss-softokn", "i18n",
         "convertfs", "network-manager", "network", "ifcfg", "url-lib", "drm", "plymouth",
         "crypt", "dm", "dmsquash-live", "kernel-modules", "kernel-modules-extra",
         "kernel-network-modules", "livenet", "lvm", "mdraid", "qemu", "qemu-net", "resume",
         "rootfs-block", "terminfo", "udev-rules", "dracut-systemd", "pollcdrom", "usrmount",
         "base", "fs-lib", "img-lib", "shutdown", "uefi-lib"]
        ++ (if biosdevname then ["biosdevname"] else [])
        ++ ["anaconda", "rdma", "rngd", "multipath", "fcoe", "fcoe-uefi", "iscsi", "lunmask",
            "nfs"] := by
  obtain ⟨kernelVer, -, rfl⟩ := NewAnacondaPipeline_ok _ _ _ _ _ _ _ _ _ h
  refine ⟨dracutStageOptions kernelVer biosdevname
    ["anaconda", "rdma", "rngd", "multipath", "fcoe", "fcoe-uefi", "iscsi", "lunmask", "nfs"],
    ?_, ?_⟩
  · rw [anaconda_Serialize_stages]
    simp [New, Stage.dracutOptions?]
  · cases biosdevname <;> simp [dracutStageOptions]

/-- Witness of C2: an installer pipeline with the Biosdevname field set; the
module list has "biosdevname" between "uefi-lib" and "anaconda". -/
theorem C2_dracut_module_list_witness :
    NewAnacondaPipeline (fun pkg => pkg.Version) none []
        [⟨"kernel-rt", "4.18.0", "305", "aarch64"⟩] "kernel-rt" "aarch64" "RHEL" "8.5"
      = Except.ok
          { toPipeline := New "anaconda-tree" none none
            repos := []
            packageSpecs := [⟨"kernel-rt", "4.18.0", "305", "aarch64"⟩]
            kernelVer := "4.18.0"
            arch := "aarch64"
            product := "RHEL"
            version := "8.5" } ∧
    ∃ o : DracutStageOptions,
      (AnacondaPipeline.Serialize
          { ({ toPipeline := New "anaconda-tree" none none
               repos := []
               packageSpecs := [⟨"kernel-rt", "4.18.0", "305", "aarch64"⟩]
               kernelVer := "4.18.0"
               arch := "aarch64"
               product := "RHEL"
               version := "8.5" } : AnacondaPipeline) with
            Users := false, Biosdevname := true, Variant := "" }).Stages.filterMap
          Stage.dracutOptions? = [o] ∧
      o.Modules =
        ["bash", "systemd", "fips", "systemd-initrd", "modsign", "nss-softokn", "i18n",
         "convertfs", "network-manager", "network", "ifcfg", "url-lib", "drm", "plymouth",
         "crypt", "dm", "dmsquash-live", "kernel-modules", "kernel-modules-extra",
         "kernel-network-modules", "livenet", "lvm", "mdraid", "qemu", "qemu-net", "resume",
         "rootfs-block", "terminfo", "udev-rules", "dracut-systemd", "pollcdrom", "usrmount",
         "base", "fs-lib", "img-lib", "shutdown", "uefi-lib"]
        ++ (if true then ["biosdevname"] else [])
        ++ ["anaconda", "rdma", "rngd", "multipath", "fcoe", "fcoe-uefi", "iscsi", "lunmask",
            "nfs"] :=
  ⟨rfl, C2_dracut_module_list (fun pkg => pkg.Version) none []
    [⟨"kernel-rt", "4.18.0", "305", "aarch64"⟩] "kernel-rt" "aarch64" "RHEL" "8.5"
    false true "" _ rfl⟩

/-- C3: NewAnacondaPipeline fails, returning no pipeline, whenever no package
of the list is named kernelName, whatever the other arguments are; when such a
package is present the construction succeeds and KernelVer() is the version
string derived from a package of the list with that name. -/
theorem C3_kernel_package_mandatory (verStr : rpmmd.PackageSpec → String)
    (build : Option BuildPipeline) (repos : List rpmmd.RepoConfig)
    (packages : List rpmmd.PackageSpec) (kernelName arch product version : String) :
    ((∀ pkg ∈ packages, pkg.Name ≠ kernelName) →
      ∃ e, NewAnacondaPipeline verStr build repos packages kernelName arch product version
        = Except.error e) ∧
    ((∃ pkg ∈ packages, pkg.Name = kernelName) →
      ∃ p pkg,
        NewAnacondaPipeline verStr build repos packages kernelName arch product version
          = Except.ok p ∧
        pkg ∈ packages ∧ pkg.Name = kernelName ∧ p.KernelVer = verStr pkg) := by
  constructor
  · intro hall
    obtain ⟨e, he⟩ := (GetVerStr_error_iff verStr packages kernelName).2 hall
    exact ⟨e, by simp [NewAnacondaPipeline, he]⟩
  · rintro ⟨pkg, hmem, hname⟩
    cases hk : rpmmd.GetVerStrFromPackageSpecListPanic verStr packages kernelName with
    | error e =>
      exact absurd hname ((GetVerStr_error_iff verStr packages kernelName).1 ⟨e, hk⟩ pkg hmem)
    | ok v =>
      obtain ⟨pkg1, hmem1, hname1, hv⟩ := GetVerStr_ok verStr packages kernelName v hk
      refine ⟨{ toPipeline := New "anaconda-tree" build none
                repos := repos
                packageSpecs := packages
                kernelVer := v
                arch := arch
                product := product
                version := version }, pkg1, ?_, hmem1, hname1, hv⟩
      simp only [NewAnacondaPipeline, hk]

/-- Witness of C3: a list without the kernel package is refused, and a list
with it yields a pipeline carrying its version string. -/
theorem C3_kernel_package_mandatory_witness :
    (∃ e, NewAnacondaPipeline (fun pkg => pkg.Version ++ "-" ++ pkg.Release) none []
        [⟨"bash", "5.1", "2", "x86_64"⟩] "kernel" "x86_64" "Fedora" "35"
      = Except.error e) ∧
    (∃ p pkg,
      NewAnacondaPipeline (fun pkg => pkg.Version ++ "-" ++ pkg.Release) none []
          [⟨"bash", "5.1", "2", "x86_64"⟩, ⟨"kernel", "5.14", "7", "x86_64"⟩]
          "kernel" "x86_64" "Fedora" "35"
        = Except.ok p ∧
      pkg ∈ [(⟨"bash", "5.1", "2", "x86_64"⟩ : rpmmd.PackageSpec),
             ⟨"kernel", "5.14", "7", "x86_64"⟩] ∧
      pkg.Name = "kernel" ∧
      p.KernelVer = (fun pkg => pkg.Version ++ "-" ++ pkg.Release) pkg) :=
  ⟨(C3_kernel_package_mandatory (fun pkg => pkg.Version ++ "-" ++ pkg.Release) none []
      [⟨"bash", "5.1", "2", "x86_64"⟩] "kernel" "x86_64" "Fedora" "35").1 (by decide),
   (C3_kernel_package_mandatory (fun pkg => pkg.Version ++ "-" ++ pkg.Release) none []
      [⟨"bash", "5.1", "2", "x86_64"⟩, ⟨"kernel", "5.14", "7", "x86_64"⟩]
      "kernel" "x86_64" "Fedora" "35").2 ⟨⟨"kernel", "5.14", "7", "x86_64"⟩, by decide, rfl⟩⟩

end pipeline

/-! ## The commit-server tree and the conversion pipeline -/

namespace pipeline

open osbuild2

/-- C4: for every commit-server pipeline built with a commit pipeline c,
Serialize emits one content-pull stage, and its input has the reference name
"name:" followed by c.Name() and the ref c.Ref(), for every name and ref; the
name is not inspected, so a name that itself starts with "name:" keeps it. -/
theorem C4_ostree_pull_input (build : Option BuildPipeline) (repos : List rpmmd.RepoConfig)
    (packageSpecs : List rpmmd.PackageSpec) (c : OSTreeCommitPipeline)
    (nginxConfigPath listenPort language : String) :
    ∃ out inputs,
      OSTreeCommitServerTreePipeline.Serialize
          { NewOSTreeCommitServerTreePipeline build repos packageSpecs (some c)
              nginxConfigPath listenPort with Language := language }
        = Except.ok out ∧
      out.Stages.filterMap Stage.ostreePullInputs? = [inputs] ∧
      inputs.name = "name:" ++ c.Name ∧
      inputs.ref = c.Ref := by
  refine ⟨_, { origin := "org.osbuild.pipeline", name := "name:" ++ c.Name, ref := c.Ref },
    commitServer_Serialize_ok _ c rfl, ?_, rfl, rfl⟩
  simp [NewOSTreeCommitServerTreePipeline, New, Stage.ostreePullInputs?]

/-- C5: for every conversion pipeline built from an image pipeline with name N
and filename F, Serialize emits exactly one stage, the qemu stage, whose input
references N and F; the input is one and the same for every target filename
and every value of the Compat field. -/
theorem C5_qcow2_single_stage (build : Option BuildPipeline) (img : LiveImgPipeline) :
    ∃ inputs : QEMUStageInputs,
      inputs.name = img.Name ∧ inputs.file = img.Filename ∧
      ∀ filename compat : String,
        ∃ out options,
          QCOW2Pipeline.Serialize
              { NewQCOW2Pipeline build (some img) filename with Compat := compat }
            = Except.ok out ∧
          out.Stages = [Stage.qemu options inputs] := by
  refine ⟨{ kind := "pipeline-file", name := img.Name, file := img.Filename }, rfl, rfl, ?_⟩
  intro filename compat
  refine ⟨_, { Filename := filename, Format := QEMUFormat.qcow2,
                FormatOptions := { Compat := compat } },
    qcow2_Serialize_ok _ img rfl, ?_⟩
  simp only [NewQCOW2Pipeline, New, List.nil_append]

/-- C6, as stated, fails: NewQCOW2Pipeline returns a pipeline for the empty
target filename, and NewOSTreeCommitServerTreePipeline returns a pipeline for
a listen port that is not a valid port; Serialize of either succeeds and hands
the value on to the stage. -/
theorem C6_no_validation_counterexample :
    NewQCOW2Pipeline none (some ⟨"image", "disk.img"⟩) ""
      = { toPipeline := { name := "qcow2", build := none, ref := none, stages := [] }
          Compat := ""
          imgPipeline := some ⟨"image", "disk.img"⟩
          filename := "" } ∧
    QCOW2Pipeline.Serialize (NewQCOW2Pipeline none (some ⟨"image", "disk.img"⟩) "")
      = Except.ok
          { Name := "qcow2"
            Build := none
            Stages := [Stage.qemu
              { Filename := "", Format := QEMUFormat.qcow2, FormatOptions := { Compat := "" } }
              { kind := "pipeline-file", name := "image", file := "disk.img" }] } ∧
    isValidPort "not-a-port" = false ∧
    NewOSTreeCommitServerTreePipeline none [] [] (some ⟨"commit", "ref"⟩)
        "/etc/nginx/nginx.conf" "not-a-port"
      = { toPipeline := { name := "container-tree", build := none, ref := none, stages := [] }
          Language := "en_US"
          repos := []
          packageSpecs := []
          commitPipeline := some ⟨"commit", "ref"⟩
          nginxConfigPath := "/etc/nginx/nginx.conf"
          listenPort := "not-a-port" } ∧
    ∃ out,
      OSTreeCommitServerTreePipeline.Serialize
          (NewOSTreeCommitServerTreePipeline none [] [] (some ⟨"commit", "ref"⟩)
            "/etc/nginx/nginx.conf" "not-a-port")
        = Except.ok out ∧
      out.Stages.filterMap Stage.nginxConfigOptions?
        = [{ Path := "/etc/nginx/nginx.conf"
             Config := some { Listen := "not-a-port", Root := "/usr/share/nginx/html",
                              Daemon := some false, PID := "/tmp/nginx.pid" } }] := by
  refine ⟨rfl, ?_, by decide, rfl, _,
    commitServer_Serialize_ok _ ⟨"commit", "ref"⟩ rfl, ?_⟩
  · rw [qcow2_Serialize_ok _ ⟨"image", "disk.img"⟩ rfl]
    rfl
  · simp [NewOSTreeCommitServerTreePipeline, New, Stage.nginxConfigOptions?]

/-- C6, amended: the two constructors do not validate. NewQCOW2Pipeline returns
a pipeline for every target filename and stores it unchanged, and Serialize
hands it to the qemu stage as it is; NewOSTreeCommitServerTreePipeline returns
a pipeline for every listen port and stores it unchanged, and Serialize hands
it to the nginx configuration as it is. -/
theorem C6_constructors_store_unchanged (build : Option BuildPipeline)
    (img : LiveImgPipeline) (filename : String)
    (repos : List rpmmd.RepoConfig) (packageSpecs : List rpmmd.PackageSpec)
    (c : OSTreeCommitPipeline) (nginxConfigPath listenPort : String) :
    (NewQCOW2Pipeline build (some img) filename).filename = filename ∧
    (∃ out options inputs,
      QCOW2Pipeline.Serialize (NewQCOW2Pipeline build (some img) filename) = Except.ok out ∧
      out.Stages = [Stage.qemu options inputs] ∧ options.Filename = filename) ∧
    (NewOSTreeCommitServerTreePipeline build repos packageSpecs (some c) nginxConfigPath
      listenPort).listenPort = listenPort ∧
    (∃ out options config,
      OSTreeCommitServerTreePipeline.Serialize
          (NewOSTreeCommitServerTreePipeline build repos packageSpecs (some c) nginxConfigPath
            listenPort)
        = Except.ok out ∧
      out.Stages.filterMap Stage.nginxConfigOptions? = [options] ∧
      options.Config = some config ∧ config.Listen = listenPort) := by
  refine ⟨rfl,
    ⟨_, { Filename := filename, Format := QEMUFormat.qcow2, FormatOptions := { Compat := "" } },
      { kind := "pipeline-file", name := img.Name, file := img.Filename },
      qcow2_Serialize_ok _ img rfl, ?_, rfl⟩,
    rfl,
    ⟨_, { Path := nginxConfigPath
          Config := some { Listen := listenPort, Root := "/usr/share/nginx/html",
                           Daemon := some false, PID := "/tmp/nginx.pid" } },
      { Listen := listenPort, Root := "/usr/share/nginx/html", Daemon := some false,
        PID := "/tmp/nginx.pid" },
      commitServer_Serialize_ok _ c rfl, ?_, rfl, rfl⟩⟩
  · simp only [NewQCOW2Pipeline, New, List.nil_append]
  · simp [NewOSTreeCommitServerTreePipeline, New, Stage.nginxConfigOptions?]

end pipeline

namespace pipeline

open osbuild2

/-- C7, as stated, fails: the constructor takes an absent commit pipeline, and
Serialize of the pipeline it returns aborts where the content-pull stage is
built; no stage list is returned, so no chmod stage is emitted. -/
theorem C7_nil_commit_counterexample :
    OSTreeCommitServerTreePipeline.Serialize
        (NewOSTreeCommitServerTreePipeline none [] [⟨"nginx", "1.20.1", "9.fc35", "x86_64"⟩]
          none "/etc/nginx/nginx.conf" "8080")
      = Except.error "nil pointer dereference: commitPipeline" ∧
    ¬ ∃ out,
      OSTreeCommitServerTreePipeline.Serialize
          (NewOSTreeCommitServerTreePipeline none [] [⟨"nginx", "1.20.1", "9.fc35", "x86_64"⟩]
            none "/etc/nginx/nginx.conf" "8080")
        = Except.ok out ∧
      Stage.chmod { Items := [("/var/log/nginx", { Mode := "a+rwX", Recursive := true })] }
        ∈ out.Stages ∧
      Stage.chmod { Items := [("/var/lib/nginx", { Mode := "a+rwX", Recursive := true })] }
        ∈ out.Stages := by
  have herr : OSTreeCommitServerTreePipeline.Serialize
        (NewOSTreeCommitServerTreePipeline none [] [⟨"nginx", "1.20.1", "9.fc35", "x86_64"⟩]
          none "/etc/nginx/nginx.conf" "8080")
      = Except.error "nil pointer dereference: commitPipeline" := by
    simp [OSTreeCommitServerTreePipeline.Serialize, NewOSTreeCommitServerTreePipeline]
  refine ⟨herr, ?_⟩
  rintro ⟨out, hout, -⟩
  rw [herr] at hout
  cases hout

/-- C7, amended: for every commit-server pipeline built with a commit pipeline
present, the stage list returned by Serialize holds a chmod stage for "/var/log/nginx" and,
right after it, a chmod stage for "/var/lib/nginx"; each has that path as its
only item, with mode "a+rwX" and recursive set; the nginx configuration stage
comes after both, and no nginx configuration stage comes earlier. -/
theorem C7_chmod_stages (build : Option BuildPipeline) (repos : List rpmmd.RepoConfig)
    (packageSpecs : List rpmmd.PackageSpec) (c : OSTreeCommitPipeline)
    (nginxConfigPath listenPort language : String) :
    ∃ out,
      OSTreeCommitServerTreePipeline.Serialize
          { NewOSTreeCommitServerTreePipeline build repos packageSpecs (some c)
              nginxConfigPath listenPort with Language := language }
        = Except.ok out ∧
      out.Stages[4]? = some (Stage.chmod
        { Items := [("/var/log/nginx", { Mode := "a+rwX", Recursive := true })] }) ∧
      out.Stages[5]? = some (Stage.chmod
        { Items := [("/var/lib/nginx", { Mode := "a+rwX", Recursive := true })] }) ∧
      (∃ options, out.Stages[6]? = some (Stage.nginxConfig options)) ∧
      ∀ (j : Nat) (options : NginxConfigStageOptions),
        out.Stages[j]? = some (Stage.nginxConfig options) → 5 < j := by
  refine ⟨_, commitServer_Serialize_ok _ c rfl, ?_, ?_, ?_, ?_⟩
  · simp [NewOSTreeCommitServerTreePipeline, New]
  · simp [NewOSTreeCommitServerTreePipeline, New]
  · simp [NewOSTreeCommitServerTreePipeline, New]
  · intro j options hj
    rcases j with _ | _ | _ | _ | _ | _ | j
    all_goals simp [NewOSTreeCommitServerTreePipeline, New] at hj
    omega

/-- C8, as stated, fails: for a pipeline built with config path P, listen port
L and an absent commit pipeline, Serialize aborts before the nginx
configuration stage is built; no nginx configuration stage is emitted. -/
theorem C8_nil_commit_counterexample :
    OSTreeCommitServerTreePipeline.Serialize
        (NewOSTreeCommitServerTreePipeline (some ⟨"build"⟩) [] [] none
          "/etc/nginx.conf" "8443")
      = Except.error "nil pointer dereference: commitPipeline" ∧
    ¬ ∃ out options,
      OSTreeCommitServerTreePipeline.Serialize
          (NewOSTreeCommitServerTreePipeline (some ⟨"build"⟩) [] [] none
            "/etc/nginx.conf" "8443")
        = Except.ok out ∧
      out.Stages.filterMap Stage.nginxConfigOptions? = [options] ∧
      options.Path = "/etc/nginx.conf" := by
  have herr : OSTreeCommitServerTreePipeline.Serialize
        (NewOSTreeCommitServerTreePipeline (some ⟨"build"⟩) [] [] none
          "/etc/nginx.conf" "8443")
      = Except.error "nil pointer dereference: commitPipeline" := by
    simp [OSTreeCommitServerTreePipeline.Serialize, NewOSTreeCommitServerTreePipeline]
  refine ⟨herr, ?_⟩
  rintro ⟨out, options, hout, -⟩
  rw [herr] at hout
  cases hout

/-- C8, amended: for every commit-server pipeline built with a commit pipeline
present, config path P and listen port L, Serialize emits one nginx configuration stage; it
writes to the path P a configuration with Listen = L, Root =
"/usr/share/nginx/html", Daemon set to false and PID = "/tmp/nginx.pid", and
the PID path lies under neither "/var/log/nginx" nor "/var/lib/nginx". -/
theorem C8_nginx_config (build : Option BuildPipeline) (repos : List rpmmd.RepoConfig)
    (packageSpecs : List rpmmd.PackageSpec) (c : OSTreeCommitPipeline)
    (nginxConfigPath listenPort language : String) :
    ∃ out options config,
      OSTreeCommitServerTreePipeline.Serialize
          { NewOSTreeCommitServerTreePipeline build repos packageSpecs (some c)
              nginxConfigPath listenPort with Language := language }
        = Except.ok out ∧
      out.Stages.filterMap Stage.nginxConfigOptions? = [options] ∧
      options.Path = nginxConfigPath ∧
      options.Config = some config ∧
      config.Listen = listenPort ∧
      config.Root = "/usr/share/nginx/html" ∧
      config.Daemon = some false ∧
      config.PID = "/tmp/nginx.pid" ∧
      liesUnder "/var/log/nginx" config.PID = false ∧
      liesUnder "/var/lib/nginx" config.PID = false := by
  refine ⟨_,
    { Path := nginxConfigPath
      Config := some { Listen := listenPort, Root := "/usr/share/nginx/html",
                       Daemon := some false, PID := "/tmp/nginx.pid" } },
    { Listen := listenPort, Root := "/usr/share/nginx/html", Daemon := some false,
      PID := "/tmp/nginx.pid" },
    commitServer_Serialize_ok _ c rfl, ?_, rfl, rfl, rfl, rfl, rfl, rfl,
    ?_, ?_⟩
  · simp [NewOSTreeCommitServerTreePipeline, New, Stage.nginxConfigOptions?]
  · show liesUnder "/var/log/nginx" "/tmp/nginx.pid" = false
    decide
  · show liesUnder "/var/lib/nginx" "/tmp/nginx.pid" = false
    decide

/-- C9, as stated, fails: for the pipeline that the constructor returns for an
absent commit pipeline, Serialize aborts and returns no stage list, so it does
not return seven stages. -/
theorem C9_nil_commit_counterexample :
    OSTreeCommitServerTreePipeline.Serialize
        (NewOSTreeCommitServerTreePipeline none [] [] none "" "")
      = Except.error "nil pointer dereference: commitPipeline" ∧
    ¬ ∃ out,
      OSTreeCommitServerTreePipeline.Serialize
          (NewOSTreeCommitServerTreePipeline none [] [] none "" "")
        = Except.ok out ∧
      out.Stages.length = 7 := by
  have herr : OSTreeCommitServerTreePipeline.Serialize
        (NewOSTreeCommitServerTreePipeline none [] [] none "" "")
      = Except.error "nil pointer dereference: commitPipeline" := by
    simp [OSTreeCommitServerTreePipeline.Serialize, NewOSTreeCommitServerTreePipeline]
  refine ⟨herr, ?_⟩
  rintro ⟨out, hout, -⟩
  rw [herr] at hout
  cases hout

/-- C9, amended: for every commit-server pipeline built with a commit pipeline
present, Serialize returns exactly seven stages, in the order rpm, locale, ostree-init,
ostree-pull, chmod, chmod, nginx-config. -/
theorem C9_commit_server_stage_order (build : Option BuildPipeline)
    (repos : List rpmmd.RepoConfig) (packageSpecs : List rpmmd.PackageSpec)
    (c : OSTreeCommitPipeline) (nginxConfigPath listenPort language : String) :
    ∃ out,
      OSTreeCommitServerTreePipeline.Serialize
          { NewOSTreeCommitServerTreePipeline build repos packageSpecs (some c)
              nginxConfigPath listenPort with Language := language }
        = Except.ok out ∧
      out.Stages.length = 7 ∧
      out.Stages.map Stage.kind
        = [StageKind.rpm, StageKind.locale, StageKind.ostreeInit, StageKind.ostreePull,
           StageKind.chmod, StageKind.chmod, StageKind.nginxConfig] := by
  refine ⟨_, commitServer_Serialize_ok _ c rfl, ?_, ?_⟩
  · simp [NewOSTreeCommitServerTreePipeline, New]
  · simp [NewOSTreeCommitServerTreePipeline, New, Stage.kind]

/-- C10, as stated, fails: the locale stage that Serialize emits for a
pipeline just returned by NewOSTreeCommitServerTreePipeline has the language
"en_US", which is not "en_US.UTF-8". -/
theorem C10_locale_counterexample :
    ∃ out options,
      OSTreeCommitServerTreePipeline.Serialize
          (NewOSTreeCommitServerTreePipeline none [] [] (some ⟨"ostree-commit", "fedora/x86_64/iot"⟩)
            "/etc/nginx.conf" "8080")
        = Except.ok out ∧
      out.Stages.filterMap Stage.localeOptions? = [options] ∧
      options.Language = "en_US" ∧
      options.Language ≠ "en_US.UTF-8" := by
  refine ⟨_, { Language := "en_US" },
    commitServer_Serialize_ok _ ⟨"ostree-commit", "fedora/x86_64/iot"⟩ rfl,
    ?_, rfl, by decide⟩
  simp [NewOSTreeCommitServerTreePipeline, New, Stage.localeOptions?]

/-- C10, amended: for every pipeline returned by
NewOSTreeCommitServerTreePipeline with a commit pipeline present, whatever the
other constructor arguments are, Serialize emits one locale stage, and its
language is the literal "en_US" that the constructor stores in the Language
field. -/
theorem C10_locale_is_en_US (build : Option BuildPipeline) (repos : List rpmmd.RepoConfig)
    (packageSpecs : List rpmmd.PackageSpec) (c : OSTreeCommitPipeline)
    (nginxConfigPath listenPort : String) :
    (NewOSTreeCommitServerTreePipeline build repos packageSpecs (some c)
      nginxConfigPath listenPort).Language = "en_US" ∧
    ∃ out options,
      OSTreeCommitServerTreePipeline.Serialize
          (NewOSTreeCommitServerTreePipeline build repos packageSpecs (some c)
            nginxConfigPath listenPort)
        = Except.ok out ∧
      out.Stages.filterMap Stage.localeOptions? = [options] ∧
      options.Language = "en_US" := by
  refine ⟨rfl, _, { Language := "en_US" },
    commitServer_Serialize_ok _ c rfl, ?_, rfl⟩
  simp [NewOSTreeCommitServerTreePipeline, New, Stage.localeOptions?]

end pipeline

/-! ## The installer tree: accounts, stage parameters, fixed values -/

namespace pipeline

open osbuild2

/-- C11, as stated, fails: the root account of the users stage has a password
value present, the empty string; the password is not unset. -/
theorem C11_root_password_counterexample :
    ∃ p options root,
      NewAnacondaPipeline (fun pkg => pkg.Version) none []
          [⟨"kernel", "5.14.0", "1.fc35", "x86_64"⟩] "kernel" "x86_64" "Fedora" "35"
        = Except.ok p ∧
      p.Serialize.Stages.filterMap Stage.usersOptions? = [options] ∧
      options.Users.lookup "root" = some root ∧
      root.Password = some "" ∧
      root.Password ≠ none := by
  refine ⟨_, { Users := [
      ("root", { Password := some "" }),
      ("install", { UID := some 0, GID := some 0, Home := some "/root",
                    Shell := some "/usr/libexec/anaconda/run-anaconda",
                    Password := some "" })] },
    { Password := some "" }, rfl, ?_, by decide, rfl, by decide⟩
  rw [anaconda_Serialize_stages]
  simp [New, Stage.usersOptions?]

/-- C11, amended: for every installer pipeline built by NewAnacondaPipeline,
with any values of the exported fields, the root account in the users stage
emitted by Serialize has its password set to the empty string: a password
value is present and it is empty. The account sets no other field. -/
theorem C11_root_password_empty (verStr : rpmmd.PackageSpec → String)
    (build : Option BuildPipeline) (repos : List rpmmd.RepoConfig)
    (packages : List rpmmd.PackageSpec) (kernelName arch product version : String)
    (users biosdevname : Bool) (variant : String) (p : AnacondaPipeline)
    (h : NewAnacondaPipeline verStr build repos packages kernelName arch product version
      = Except.ok p) :
    ∃ options root,
      (AnacondaPipeline.Serialize
          { p with Users := users, Biosdevname := biosdevname, Variant := variant }).Stages.filterMap
          Stage.usersOptions? = [options] ∧
      options.Users.lookup "root" = some root ∧
      root.Password = some "" ∧
      root.UID = none ∧ root.GID = none ∧ root.Home = none ∧ root.Shell = none := by
  obtain ⟨kernelVer, -, rfl⟩ := NewAnacondaPipeline_ok _ _ _ _ _ _ _ _ _ h
  refine ⟨{ Users := [
      ("root", { Password := some "" }),
      ("install", { UID := some 0, GID := some 0, Home := some "/root",
                    Shell := some "/usr/libexec/anaconda/run-anaconda",
                    Password := some "" })] },
    { Password := some "" }, ?_, by decide, rfl, rfl, rfl, rfl, rfl⟩
  rw [anaconda_Serialize_stages]
  simp [New, Stage.usersOptions?]

/-- Witness of the amended C11: an installer pipeline with the Users field
set. -/
theorem C11_root_password_empty_witness :
    ∃ p,
      NewAnacondaPipeline (fun pkg => pkg.Version ++ "." ++ pkg.Arch) none
          [⟨"fedora", "https://example.org/fedora"⟩]
          [⟨"anaconda", "35.22", "1", "x86_64"⟩, ⟨"kernel", "5.14.10", "300.fc35", "x86_64"⟩]
          "kernel" "x86_64" "Fedora" "35"
        = Except.ok p ∧
      ∃ options root,
        (AnacondaPipeline.Serialize
            { p with Users := true, Biosdevname := false, Variant := "Workstation" }).Stages.filterMap
            Stage.usersOptions? = [options] ∧
        options.Users.lookup "root" = some root ∧
        root.Password = some "" ∧
        root.UID = none ∧ root.GID = none ∧ root.Home = none ∧ root.Shell = none :=
  ⟨_, rfl, C11_root_password_empty (fun pkg => pkg.Version ++ "." ++ pkg.Arch) none
    [⟨"fedora", "https://example.org/fedora"⟩]
    [⟨"anaconda", "35.22", "1", "x86_64"⟩, ⟨"kernel", "5.14.10", "300.fc35", "x86_64"⟩]
    "kernel" "x86_64" "Fedora" "35" true false "Workstation" _ rfl⟩

/-- C12: for every installer pipeline built by NewAnacondaPipeline, with any
values of the exported fields, the users stage emitted by Serialize defines
exactly the two accounts "root" and "install", and the "install" account has
UID 0, GID 0, home "/root" and shell "/usr/libexec/anaconda/run-anaconda". -/
theorem C12_install_account (verStr : rpmmd.PackageSpec → String)
    (build : Option BuildPipeline) (repos : List rpmmd.RepoConfig)
    (packages : List rpmmd.PackageSpec) (kernelName arch product version : String)
    (users biosdevname : Bool) (variant : String) (p : AnacondaPipeline)
    (h : NewAnacondaPipeline verStr build repos packages kernelName arch product version
      = Except.ok p) :
    ∃ options install,
      (AnacondaPipeline.Serialize
          { p with Users := users, Biosdevname := biosdevname, Variant := variant }).Stages.filterMap
          Stage.usersOptions? = [options] ∧
      options.Users.map Prod.fst = ["root", "install"] ∧
      options.Users.lookup "install" = some install ∧
      install.UID = some 0 ∧
      install.GID = some 0 ∧
      install.Home = some "/root" ∧
      install.Shell = some "/usr/libexec/anaconda/run-anaconda" := by
  obtain ⟨kernelVer, -, rfl⟩ := NewAnacondaPipeline_ok _ _ _ _ _ _ _ _ _ h
  refine ⟨{ Users := [
      ("root", { Password := some "" }),
      ("install", { UID := some 0, GID := some 0, Home := some "/root",
                    Shell := some "/usr/libexec/anaconda/run-anaconda",
                    Password := some "" })] },
    { UID := some 0, GID := some 0, Home := some "/root",
      Shell := some "/usr/libexec/anaconda/run-anaconda", Password := some "" },
    ?_, rfl, by decide, rfl, rfl, rfl, rfl⟩
  rw [anaconda_Serialize_stages]
  simp [New, Stage.usersOptions?]

/-- Witness of C12: an installer pipeline for another architecture, with both
flags set. -/
theorem C12_install_account_witness :
    ∃ p,
      NewAnacondaPipeline (fun pkg => pkg.Version ++ "-" ++ pkg.Release) (some ⟨"build"⟩) []
          [⟨"kernel-core", "4.18.0", "348.el8", "ppc64le"⟩]
          "kernel-core" "ppc64le" "Red Hat Enterprise Linux" "8.5"
        = Except.ok p ∧
      ∃ options install,
        (AnacondaPipeline.Serialize
            { p with Users := true, Biosdevname := true, Variant := "edge" }).Stages.filterMap
            Stage.usersOptions? = [options] ∧
        options.Users.map Prod.fst = ["root", "install"] ∧
        options.Users.lookup "install" = some install ∧
        install.UID = some 0 ∧
        install.GID = some 0 ∧
        install.Home = some "/root" ∧
        install.Shell = some "/usr/libexec/anaconda/run-anaconda" :=
  ⟨_, rfl, C12_install_account (fun pkg => pkg.Version ++ "-" ++ pkg.Release) (some ⟨"build"⟩) []
    [⟨"kernel-core", "4.18.0", "348.el8", "ppc64le"⟩]
    "kernel-core" "ppc64le" "Red Hat Enterprise Linux" "8.5" true true "edge" _ rfl⟩

end pipeline

namespace pipeline

open osbuild2

/-- C13, as stated, fails: for a pipeline built with an absent commit pipeline,
Serialize aborts where the content-pull stage is built; neither an ostree-init
path nor an ostree-pull repo is emitted. -/
theorem C13_nil_commit_counterexample :
    OSTreeCommitServerTreePipeline.Serialize
        { NewOSTreeCommitServerTreePipeline none [⟨"fedora", "https://example.org/fedora"⟩]
            [] none "/etc/nginx/nginx.conf" "80" with Language := "C.UTF-8" }
      = Except.error "nil pointer dereference: commitPipeline" ∧
    ¬ ∃ out init pull,
      OSTreeCommitServerTreePipeline.Serialize
          { NewOSTreeCommitServerTreePipeline none [⟨"fedora", "https://example.org/fedora"⟩]
              [] none "/etc/nginx/nginx.conf" "80" with Language := "C.UTF-8" }
        = Except.ok out ∧
      out.Stages.filterMap Stage.ostreeInitOptions? = [init] ∧
      out.Stages.filterMap Stage.ostreePullOptions? = [pull] ∧
      pull.Repo = init.Path := by
  have herr : OSTreeCommitServerTreePipeline.Serialize
        { NewOSTreeCommitServerTreePipeline none [⟨"fedora", "https://example.org/fedora"⟩]
            [] none "/etc/nginx/nginx.conf" "80" with Language := "C.UTF-8" }
      = Except.error "nil pointer dereference: commitPipeline" := by
    simp [OSTreeCommitServerTreePipeline.Serialize, NewOSTreeCommitServerTreePipeline]
  refine ⟨herr, ?_⟩
  rintro ⟨out, init, pull, hout, -⟩
  rw [herr] at hout
  cases hout

/-- C13, amended: for every commit-server pipeline built with a commit pipeline
present, the path of the ostree-init stage and the repo of the ostree-pull stage emitted by
Serialize are the same string "/usr/share/nginx/html/repo", and that string is
the join of the Root value of the nginx configuration stage with "repo". -/
theorem C13_repo_path (build : Option BuildPipeline) (repos : List rpmmd.RepoConfig)
    (packageSpecs : List rpmmd.PackageSpec) (c : OSTreeCommitPipeline)
    (nginxConfigPath listenPort language : String) :
    ∃ out init pull nginx config,
      OSTreeCommitServerTreePipeline.Serialize
          { NewOSTreeCommitServerTreePipeline build repos packageSpecs (some c)
              nginxConfigPath listenPort with Language := language }
        = Except.ok out ∧
      out.Stages.filterMap Stage.ostreeInitOptions? = [init] ∧
      out.Stages.filterMap Stage.ostreePullOptions? = [pull] ∧
      out.Stages.filterMap Stage.nginxConfigOptions? = [nginx] ∧
      nginx.Config = some config ∧
      init.Path = "/usr/share/nginx/html/repo" ∧
      pull.Repo = init.Path ∧
      init.Path = filepath.Join [config.Root, "repo"] := by
  refine ⟨_, { Path := "/usr/share/nginx/html/repo" }, { Repo := "/usr/share/nginx/html/repo" },
    { Path := nginxConfigPath
      Config := some { Listen := listenPort, Root := "/usr/share/nginx/html",
                       Daemon := some false, PID := "/tmp/nginx.pid" } },
    { Listen := listenPort, Root := "/usr/share/nginx/html", Daemon := some false,
      PID := "/tmp/nginx.pid" },
    commitServer_Serialize_ok _ c rfl, ?_, ?_, ?_, rfl, rfl, rfl, ?_⟩
  · simp [NewOSTreeCommitServerTreePipeline, New, Stage.ostreeInitOptions?]
  · simp [NewOSTreeCommitServerTreePipeline, New, Stage.ostreePullOptions?]
  · simp [NewOSTreeCommitServerTreePipeline, New, Stage.nginxConfigOptions?]
  · exact repoPath_eq.symm

/-- C14: for every installer pipeline built by NewAnacondaPipeline with arch A,
product P and version V, and with the Variant field set to X, Serialize emits
a buildstamp stage with Arch = A, Product = P, Version = V, Variant = X and
Final = true, a lorax-script stage with the path
"99-generic/runtime-postinstall.tmpl" and BaseArch = A, and a dracut stage
whose kernel list is the single entry KernelVer() and whose install list is
the single entry "/.buildstamp". -/
theorem C14_stage_parameters (verStr : rpmmd.PackageSpec → String)
    (build : Option BuildPipeline) (repos : List rpmmd.RepoConfig)
    (packages : List rpmmd.PackageSpec) (kernelName arch product version : String)
    (users biosdevname : Bool) (variant : String) (p : AnacondaPipeline)
    (h : NewAnacondaPipeline verStr build repos packages kernelName arch product version
      = Except.ok p) :
    (AnacondaPipeline.Serialize
        { p with Users := users, Biosdevname := biosdevname, Variant := variant }).Stages.filterMap
        Stage.buildstampOptions?
      = [{ Arch := arch, Product := product, Variant := variant, Version := version,
           Final := true }] ∧
    (AnacondaPipeline.Serialize
        { p with Users := users, Biosdevname := biosdevname, Variant := variant }).Stages.filterMap
        Stage.loraxScriptOptions?
      = [{ Path := "99-generic/runtime-postinstall.tmpl", BaseArch := arch }] ∧
    ∃ dracut,
      (AnacondaPipeline.Serialize
          { p with Users := users, Biosdevname := biosdevname, Variant := variant }).Stages.filterMap
          Stage.dracutOptions? = [dracut] ∧
      dracut.Kernel
        = [AnacondaPipeline.KernelVer
            { p with Users := users, Biosdevname := biosdevname, Variant := variant }] ∧
      dracut.Install = ["/.buildstamp"] := by
  obtain ⟨kernelVer, -, rfl⟩ := NewAnacondaPipeline_ok _ _ _ _ _ _ _ _ _ h
  refine ⟨?_, ?_, dracutStageOptions kernelVer biosdevname
    ["anaconda", "rdma", "rngd", "multipath", "fcoe", "fcoe-uefi", "iscsi", "lunmask", "nfs"],
    ?_, rfl, rfl⟩
  · rw [anaconda_Serialize_stages]
    simp [New, Stage.buildstampOptions?]
  · rw [anaconda_Serialize_stages]
    simp [New, Stage.loraxScriptOptions?]
  · rw [anaconda_Serialize_stages]
    simp [New, Stage.dracutOptions?]

/-- Witness of C14: an installer pipeline built for aarch64 with the Variant
field set; the kernel version is the one derived from the kernel package. -/
theorem C14_stage_parameters_witness :
    ∃ p,
      NewAnacondaPipeline (fun pkg => pkg.Version ++ "-" ++ pkg.Release ++ "." ++ pkg.Arch)
          none [] [⟨"kernel", "5.15.4", "201.fc35", "aarch64"⟩]
          "kernel" "aarch64" "Fedora-IoT" "35"
        = Except.ok p ∧
      p.KernelVer = "5.15.4-201.fc35.aarch64" ∧
      (AnacondaPipeline.Serialize
          { p with Users := false, Biosdevname := false, Variant := "IoT" }).Stages.filterMap
          Stage.buildstampOptions?
        = [{ Arch := "aarch64", Product := "Fedora-IoT", Variant := "IoT", Version := "35",
             Final := true }] ∧
      (AnacondaPipeline.Serialize
          { p with Users := false, Biosdevname := false, Variant := "IoT" }).Stages.filterMap
          Stage.loraxScriptOptions?
        = [{ Path := "99-generic/runtime-postinstall.tmpl", BaseArch := "aarch64" }] ∧
      ∃ dracut,
        (AnacondaPipeline.Serialize
            { p with Users := false, Biosdevname := false, Variant := "IoT" }).Stages.filterMap
            Stage.dracutOptions? = [dracut] ∧
        dracut.Kernel
          = [AnacondaPipeline.KernelVer
              { p with Users := false, Biosdevname := false, Variant := "IoT" }] ∧
        dracut.Install = ["/.buildstamp"] :=
  ⟨_, rfl, rfl,
    C14_stage_parameters
      (fun pkg => pkg.Version ++ "-" ++ pkg.Release ++ "." ++ pkg.Arch)
      none [] [⟨"kernel", "5.15.4", "201.fc35", "aarch64"⟩]
      "kernel" "aarch64" "Fedora-IoT" "35" false false "IoT" _ rfl⟩

/-- C15: for every installer pipeline built by NewAnacondaPipeline, whatever
the constructor inputs and the fields Users, Biosdevname and Variant are, the
locale stage emitted by Serialize has the language "en_US.UTF-8" and the
SELinux stage has the state permissive. -/
theorem C15_locale_and_selinux (verStr : rpmmd.PackageSpec → String)
    (build : Option BuildPipeline) (repos : List rpmmd.RepoConfig)
    (packages : List rpmmd.PackageSpec) (kernelName arch product version : String)
    (users biosdevname : Bool) (variant : String) (p : AnacondaPipeline)
    (h : NewAnacondaPipeline verStr build repos packages kernelName arch product version
      = Except.ok p) :
    (AnacondaPipeline.Serialize
        { p with Users := users, Biosdevname := biosdevname, Variant := variant }).Stages.filterMap
        Stage.localeOptions?
      = [{ Language := "en_US.UTF-8" }] ∧
    (AnacondaPipeline.Serialize
        { p with Users := users, Biosdevname := biosdevname, Variant := variant }).Stages.filterMap
        Stage.selinuxConfigOptions?
      = [{ State := SELinuxStatePermissive }] ∧
    SELinuxStatePermissive = SELinuxState.permissive := by
  obtain ⟨kernelVer, -, rfl⟩ := NewAnacondaPipeline_ok _ _ _ _ _ _ _ _ _ h
  refine ⟨?_, ?_, rfl⟩
  · rw [anaconda_Serialize_stages]
    simp [New, Stage.localeOptions?]
  · rw [anaconda_Serialize_stages]
    simp [New, Stage.selinuxConfigOptions?, SELinuxStatePermissive]

/-- Witness of C15: an installer pipeline with a build pipeline and all three
exported fields set. -/
theorem C15_locale_and_selinux_witness :
    ∃ p,
      NewAnacondaPipeline (fun pkg => pkg.Name ++ "-" ++ pkg.Version) (some ⟨"build"⟩) []
          [⟨"kernel", "6.0.7", "301.fc37", "s390x"⟩] "kernel" "s390x" "Fedora" "37"
        = Except.ok p ∧
      (AnacondaPipeline.Serialize
          { p with Users := true, Biosdevname := true, Variant := "Server" }).Stages.filterMap
          Stage.localeOptions?
        = [{ Language := "en_US.UTF-8" }] ∧
      (AnacondaPipeline.Serialize
          { p with Users := true, Biosdevname := true, Variant := "Server" }).Stages.filterMap
          Stage.selinuxConfigOptions?
        = [{ State := SELinuxStatePermissive }] ∧
      SELinuxStatePermissive = SELinuxState.permissive :=
  ⟨_, rfl, C15_locale_and_selinux (fun pkg => pkg.Name ++ "-" ++ pkg.Version) (some ⟨"build"⟩) []
    [⟨"kernel", "6.0.7", "301.fc37", "s390x"⟩] "kernel" "s390x" "Fedora" "37"
    true true "Server" _ rfl⟩

end pipeline

/-! ## Properties read off the code -/

namespace pipeline

open osbuild2

/-- C16: for both values of the biosdevname flag, the module list that
dracutStageOptions produces with the nine additional modules of the installer
has no duplicate entry; it has 46 entries when the flag is false and 47 when
it is true, and the base list has 37 entries. -/
theorem C16_dracut_modules_nodup (kernelVer : String) (biosdevname : Bool) :
    (dracutStageOptions kernelVer biosdevname
      ["anaconda", "rdma", "rngd", "multipath", "fcoe", "fcoe-uefi", "iscsi", "lunmask",
       "nfs"]).Modules.Nodup ∧
    (dracutStageOptions kernelVer biosdevname
      ["anaconda", "rdma", "rngd", "multipath", "fcoe", "fcoe-uefi", "iscsi", "lunmask",
       "nfs"]).Modules.length = (if biosdevname then 47 else 46) ∧
    (dracutStageOptions kernelVer false []).Modules.length = 37 := by
  cases biosdevname
  · refine ⟨?_, rfl, rfl⟩
    simp only [dracutStageOptions]
    decide
  · refine ⟨?_, rfl, rfl⟩
    simp only [dracutStageOptions]
    decide

end pipeline

namespace pipeline

open osbuild2

/-- C17: two installer pipelines that are equal except for the Biosdevname
field serialize to the same pipeline name and build reference, and their stage
lists agree at every index except where both hold a dracut stage; the two
dracut stages have the same kernel list and install list, so they differ in
the module list only. Two pipelines that are equal except for the Users field
agree likewise, at every index except where both hold an anaconda stage. -/
theorem C17_flag_frame (p : AnacondaPipeline) (b1 b2 u1 u2 : Bool) :
    (AnacondaPipeline.Serialize { p with Biosdevname := b1 }).Name
      = (AnacondaPipeline.Serialize { p with Biosdevname := b2 }).Name ∧
    (AnacondaPipeline.Serialize { p with Biosdevname := b1 }).Build
      = (AnacondaPipeline.Serialize { p with Biosdevname := b2 }).Build ∧
    (∀ i : Nat,
      (AnacondaPipeline.Serialize { p with Biosdevname := b1 }).Stages[i]?
        = (AnacondaPipeline.Serialize { p with Biosdevname := b2 }).Stages[i]? ∨
      ∃ d1 d2,
        (AnacondaPipeline.Serialize { p with Biosdevname := b1 }).Stages[i]?
          = some (Stage.dracut d1) ∧
        (AnacondaPipeline.Serialize { p with Biosdevname := b2 }).Stages[i]?
          = some (Stage.dracut d2) ∧
        d1.Kernel = d2.Kernel ∧ d1.Install = d2.Install) ∧
    (AnacondaPipeline.Serialize { p with Users := u1 }).Name
      = (AnacondaPipeline.Serialize { p with Users := u2 }).Name ∧
    (AnacondaPipeline.Serialize { p with Users := u1 }).Build
      = (AnacondaPipeline.Serialize { p with Users := u2 }).Build ∧
    (∀ i : Nat,
      (AnacondaPipeline.Serialize { p with Users := u1 }).Stages[i]?
        = (AnacondaPipeline.Serialize { p with Users := u2 }).Stages[i]? ∨
      ∃ a1 a2,
        (AnacondaPipeline.Serialize { p with Users := u1 }).Stages[i]?
          = some (Stage.anaconda a1) ∧
        (AnacondaPipeline.Serialize { p with Users := u2 }).Stages[i]?
          = some (Stage.anaconda a2)) := by
  refine ⟨rfl, rfl, ?_, rfl, rfl, ?_⟩
  · intro i
    rw [anaconda_Serialize_stages, anaconda_Serialize_stages]
    rcases getElem?_append_frame p.stages _ _ i with h | ⟨k, h1, h2⟩
    · exact Or.inl h
    · rcases k with _ | _ | _ | _ | _ | _ | _ | _ | k
      case succ.succ.succ.succ.succ.succ.zero =>
        exact Or.inr ⟨_, _, h1, h2, rfl, rfl⟩
      all_goals exact Or.inl (h1.trans h2.symm)
  · intro i
    rw [anaconda_Serialize_stages, anaconda_Serialize_stages]
    rcases getElem?_append_frame p.stages _ _ i with h | ⟨k, h1, h2⟩
    · exact Or.inl h
    · rcases k with _ | _ | _ | _ | _ | _ | _ | _ | k
      case succ.succ.succ.succ.zero =>
        exact Or.inr ⟨_, _, h1, h2⟩
      all_goals exact Or.inl (h1.trans h2.symm)

end pipeline

namespace pipeline

open osbuild2

/-- C18: the pipeline name is fixed by the variant. Every pipeline that
NewAnacondaPipeline yields is named "anaconda-tree", every pipeline of
NewOSTreeCommitServerTreePipeline "container-tree", and every pipeline of
NewQCOW2Pipeline "qcow2", with a nil ref, whatever the constructor arguments
are; so two pipelines built by one constructor from different arguments have
equal names. -/
theorem C18_pipeline_names (verStr verStr2 : rpmmd.PackageSpec → String)
    (build build2 : Option BuildPipeline) (repos repos2 : List rpmmd.RepoConfig)
    (packages packages2 : List rpmmd.PackageSpec)
    (kernelName arch product version kernelName2 arch2 product2 version2 : String)
    (commit commit2 : Option OSTreeCommitPipeline)
    (nginxConfigPath listenPort nginxConfigPath2 listenPort2 : String)
    (img img2 : Option LiveImgPipeline) (filename filename2 : String)
    (p p2 : AnacondaPipeline)
    (h : NewAnacondaPipeline verStr build repos packages kernelName arch product version
      = Except.ok p)
    (h2 : NewAnacondaPipeline verStr2 build2 repos2 packages2 kernelName2 arch2 product2
      version2 = Except.ok p2) :
    p.toPipeline.Name = "anaconda-tree" ∧
    p.toPipeline.Name = p2.toPipeline.Name ∧
    (NewOSTreeCommitServerTreePipeline build repos packages commit nginxConfigPath
      listenPort).toPipeline.Name = "container-tree" ∧
    (NewOSTreeCommitServerTreePipeline build repos packages commit nginxConfigPath
      listenPort).toPipeline.Name
      = (NewOSTreeCommitServerTreePipeline build2 repos2 packages2 commit2 nginxConfigPath2
          listenPort2).toPipeline.Name ∧
    (NewQCOW2Pipeline build img filename).toPipeline.Name = "qcow2" ∧
    (NewQCOW2Pipeline build img filename).toPipeline.Ref = none ∧
    (NewQCOW2Pipeline build img filename).toPipeline.Name
      = (NewQCOW2Pipeline build2 img2 filename2).toPipeline.Name := by
  obtain ⟨kernelVer, -, rfl⟩ := NewAnacondaPipeline_ok _ _ _ _ _ _ _ _ _ h
  obtain ⟨kernelVer2, -, rfl⟩ := NewAnacondaPipeline_ok _ _ _ _ _ _ _ _ _ h2
  exact ⟨rfl, rfl, rfl, rfl, rfl, rfl, rfl⟩

/-- Witness of C18: two installer pipelines built from different arguments
carry the one name. -/
theorem C18_pipeline_names_witness :
    ∃ p p2,
      NewAnacondaPipeline (fun pkg => pkg.Version) none []
          [⟨"kernel", "5.14.0", "70.el9", "x86_64"⟩] "kernel" "x86_64" "RHEL" "9.0"
        = Except.ok p ∧
      NewAnacondaPipeline (fun pkg => pkg.Release) (some ⟨"build"⟩)
          [⟨"baseos", "https://example.org/baseos"⟩]
          [⟨"kernel-debug", "4.18.0", "372.el8", "aarch64"⟩] "kernel-debug" "aarch64"
          "CentOS Stream" "8"
        = Except.ok p2 ∧
      p.toPipeline.Name = "anaconda-tree" ∧
      p.toPipeline.Name = p2.toPipeline.Name :=
  ⟨_, _, rfl, rfl,
    (C18_pipeline_names (fun pkg => pkg.Version) (fun pkg => pkg.Release)
      none (some ⟨"build"⟩) [] [⟨"baseos", "https://example.org/baseos"⟩]
      [⟨"kernel", "5.14.0", "70.el9", "x86_64"⟩]
      [⟨"kernel-debug", "4.18.0", "372.el8", "aarch64"⟩]
      "kernel" "x86_64" "RHEL" "9.0" "kernel-debug" "aarch64" "CentOS Stream" "8"
      none none "" "" "" "" none none "" "" _ _ rfl rfl).1,
    (C18_pipeline_names (fun pkg => pkg.Version) (fun pkg => pkg.Release)
      none (some ⟨"build"⟩) [] [⟨"baseos", "https://example.org/baseos"⟩]
      [⟨"kernel", "5.14.0", "70.el9", "x86_64"⟩]
      [⟨"kernel-debug", "4.18.0", "372.el8", "aarch64"⟩]
      "kernel" "x86_64" "RHEL" "9.0" "kernel-debug" "aarch64" "CentOS Stream" "8"
      none none "" "" "" "" none none "" "" _ _ rfl rfl).2.1⟩

/-- C19: NewQCOW2Pipeline and NewOSTreeCommitServerTreePipeline take an absent
upstream pipeline and return a pipeline that stores it; Serialize of the
resulting pipeline returns a pipeline exactly when the upstream pipeline is
present, whatever the other arguments and exported fields are, and aborts when
it is absent. -/
theorem C19_upstream_presence (build : Option BuildPipeline)
    (img : Option LiveImgPipeline) (filename compat : String)
    (repos : List rpmmd.RepoConfig) (packageSpecs : List rpmmd.PackageSpec)
    (commit : Option OSTreeCommitPipeline) (nginxConfigPath listenPort language : String) :
    (NewQCOW2Pipeline build none filename).imgPipeline = none ∧
    ((∃ out, QCOW2Pipeline.Serialize
        { NewQCOW2Pipeline build img filename with Compat := compat } = Except.ok out)
      ↔ img.isSome = true) ∧
    ((∃ e, QCOW2Pipeline.Serialize
        { NewQCOW2Pipeline build img filename with Compat := compat } = Except.error e)
      ↔ img = none) ∧
    (NewOSTreeCommitServerTreePipeline build repos packageSpecs none nginxConfigPath
      listenPort).commitPipeline = none ∧
    ((∃ out, OSTreeCommitServerTreePipeline.Serialize
        { NewOSTreeCommitServerTreePipeline build repos packageSpecs commit nginxConfigPath
            listenPort with Language := language } = Except.ok out)
      ↔ commit.isSome = true) ∧
    ((∃ e, OSTreeCommitServerTreePipeline.Serialize
        { NewOSTreeCommitServerTreePipeline build repos packageSpecs commit nginxConfigPath
            listenPort with Language := language } = Except.error e)
      ↔ commit = none) := by
  refine ⟨rfl, ?_, ?_, rfl, ?_, ?_⟩
  · cases img with
    | none => simp [QCOW2Pipeline.Serialize, NewQCOW2Pipeline]
    | some i => simp [QCOW2Pipeline.Serialize, NewQCOW2Pipeline]
  · cases img with
    | none => simp [QCOW2Pipeline.Serialize, NewQCOW2Pipeline]
    | some i => simp [QCOW2Pipeline.Serialize, NewQCOW2Pipeline]
  · cases commit with
    | none => simp [OSTreeCommitServerTreePipeline.Serialize, NewOSTreeCommitServerTreePipeline]
    | some c => simp [OSTreeCommitServerTreePipeline.Serialize, NewOSTreeCommitServerTreePipeline]
  · cases commit with
    | none => simp [OSTreeCommitServerTreePipeline.Serialize, NewOSTreeCommitServerTreePipeline]
    | some c => simp [OSTreeCommitServerTreePipeline.Serialize, NewOSTreeCommitServerTreePipeline]

end pipeline
